import Mathlib

/-!
Verification development for the Universal-OS-getter repository (src/main.py).

The Python program is shallowly embedded: each method of `LinkManager` /
`OSInstaller` becomes a Lean function.  External effects are explicit inputs:

* HTTP traffic is an oracle value (`Except Unit Response` for a GET,
  `String → Except Unit Nat` for HEAD status probes); `Except.error` models a
  raised `requests` exception, and `Response.hrefs` models the list of anchor
  `href` attributes that `BeautifulSoup(...).find_all('a')` would yield.
* `datetime` timestamps are `Int` seconds; an ISO-8601 timestamp string is
  either `TsField.validIso t` (parses to `t`) or `TsField.invalidIso`
  (raises `ValueError` in `datetime.fromisoformat`).
* The JSON cache file is a `CacheState` describing what `open`/`json.load`
  would observe; a raised-and-uncaught exception shows up as `Except.error`.
* File contents are byte lists (`List Nat`); SHA-256 is implemented directly.
-/

/-- Python truthiness of an optional string (`None` and `""` are falsy). -/
def truthyStr : Option String → Bool
  | some s => !(s == "")
  | none => false

/-- `listStarts needle hay`: `hay` begins with `needle`. -/
def listStarts : List Char → List Char → Bool
  | [], _ => true
  | _ :: _, [] => false
  | a :: as, b :: bs => a == b && listStarts as bs

/-- `isSubstrL needle hay`: `needle` occurs contiguously in `hay`
(the semantics of Python's `in` on strings). -/
def isSubstrL (needle : List Char) : List Char → Bool
  | [] => needle.isEmpty
  | c :: t => listStarts needle (c :: t) || isSubstrL needle t

/-- Python's `needle in hay` on strings. -/
def isSubstrS (needle hay : String) : Bool := isSubstrL needle.data hay.data

/-- `strStartsWith s pre`: Python `s.startswith(pre)`. -/
def strStartsWith (s pre : String) : Bool := listStarts pre.data s.data

/-- `strEndsWith s suffix`: Python `s.endswith(suffix)`. -/
def strEndsWith (s suffix : String) : Bool := listStarts suffix.data.reverse s.data.reverse

/-- Drop the last `n` characters of a string. -/
def strDropRight (s : String) (n : Nat) : String := String.mk (s.data.take (s.data.length - n))

/-- Drop the first `n` characters of a string. -/
def strDrop (s : String) (n : Nat) : String := String.mk (s.data.drop n)

/-- ASCII lowercasing of one character (the strings this program lowercases
are ASCII URLs, headers and hex digests). -/
def asciiLower (c : Char) : Char :=
  if 65 ≤ c.toNat && c.toNat ≤ 90 then Char.ofNat (c.toNat + 32) else c

/-- Python `str.lower()` on ASCII strings. -/
def strToLower (s : String) : String := String.mk (s.data.map asciiLower)

/-- Fuel-driven worker for `pyRemoveAll`; the fuel is the length of the
remaining text, which bounds the recursion. -/
def removeAllAux (pattern : List Char) : Nat → List Char → List Char
  | 0, l => l
  | _, [] => []
  | fuel + 1, c :: t =>
    if !pattern.isEmpty && listStarts pattern (c :: t) then
      removeAllAux pattern fuel ((c :: t).drop pattern.length)
    else c :: removeAllAux pattern fuel t

/-- Python `s.replace(pattern, '')`: remove every non-overlapping occurrence
of `pattern`, scanning left to right. -/
def pyRemoveAll (s pattern : String) : String :=
  String.mk (removeAllAux pattern.data s.data.length s.data)

/-- The digit characters of a decimal literal, as a number. -/
def digitsToNat (l : List Char) : Nat := l.foldl (fun n c => n * 10 + (c.toNat - 48)) 0

/-- Python `int(s)` on a plain decimal string: optional sign followed by at
least one digit; anything else raises `ValueError` (`none`). -/
def pyParseInt (s : String) : Option Int :=
  match s.data with
  | [] => none
  | '-' :: rest =>
    if !rest.isEmpty && rest.all (fun c => c.isDigit) then some (-(digitsToNat rest : Int))
    else none
  | '+' :: rest =>
    if !rest.isEmpty && rest.all (fun c => c.isDigit) then some (digitsToNat rest : Int)
    else none
  | l =>
    if l.all (fun c => c.isDigit) then some (digitsToNat l : Int) else none

/-- Python string `<`: lexicographic comparison of Unicode code points. -/
def pyStrLt : List Char → List Char → Bool
  | [], [] => false
  | [], _ :: _ => true
  | _ :: _, [] => false
  | a :: as, b :: bs =>
    if a.toNat < b.toNat then true
    else if b.toNat < a.toNat then false
    else pyStrLt as bs

/-- Python string `>` (used by `get_arch_link` at `href > latest_version`). -/
def pyStrGtS (a b : String) : Bool := pyStrLt b.data a.data

/-- Python `str.isdigit()`: nonempty and all characters are digits. -/
def pyIsdigit (s : String) : Bool := !s.data.isEmpty && s.data.all (fun c => c.isDigit)

/-- Python `int(...)` on an all-digit string. -/
def pyIntOfDigits (s : String) : Nat :=
  s.data.foldl (fun n c => n * 10 + (c.toNat - 48)) 0

/-- The comparison `int(href) > int(latest_build)` of `get_popos_link`. -/
def pyIntGt (a b : String) : Bool := decide (pyIntOfDigits b < pyIntOfDigits a)

/-- Keep the characters of a URL up to and including its last `/`. -/
def keepThroughLastSlash (l : List Char) : List Char :=
  (l.reverse.dropWhile (fun c => c != '/')).reverse

/-- Modelled from the spec: `urllib.parse.urljoin` is library code outside this
repository; the spec says resolvers "resolve relative targets against the
request's effective base URL".  An absolute target is kept as is, a relative
one replaces the last path segment of the base. -/
def urljoin (base url : String) : String :=
  if isSubstrS "://" url then url
  else String.mk (keepThroughLastSlash base.data) ++ url

/-- What one `requests.get` observes: HTTP status, the `href` attributes of
the anchors that parsing `response.text` yields, and the effective
`response.url` after redirects. -/
structure Response where
  status_code : Nat
  hrefs : List String
  url : String
deriving DecidableEq

/-- `LinkManager.get_ubuntu_link` (src/main.py lines 41-50): first anchor whose
target contains `desktop-amd64.iso`, joined against the release directory;
a raised exception gives `None`, as does a non-matching anchor set. -/
def get_ubuntu_link (resp : Except Unit Response) (version : String) : Option String :=
  match resp with
  | .error _ => none
  | .ok r =>
    match r.hrefs.find? (fun href => isSubstrS "desktop-amd64.iso" href) with
    | some href => some (urljoin ("https://releases.ubuntu.com/" ++ version ++ "/") href)
    | none => none

/-- The `re.search(r'Fedora-Workstation-Live-x86_64-.*\.iso$', href)` test:
the href ends with `.iso` and contains the workstation marker before it. -/
def fedora_iso_match (href : String) : Bool :=
  strEndsWith href ".iso" && isSubstrS "Fedora-Workstation-Live-x86_64-" (strDropRight href 4)

/-- `LinkManager.get_fedora_link` (lines 52-62). -/
def get_fedora_link (resp : Except Unit Response) (version : String) : Option String :=
  match resp with
  | .error _ => none
  | .ok r =>
    match r.hrefs.find? fedora_iso_match with
    | some href =>
      some (urljoin ("https://download.fedoraproject.org/pub/fedora/linux/releases/"
        ++ version ++ "/Workstation/x86_64/iso/") href)
    | none => none

/-- `LinkManager.get_debian_link` (lines 64-77).  `resp` is the response of the
GET against the `iso-cd` (for `version_type = "NET"`) or `iso-dvd` directory;
the anchor test accepts either a `netinst.iso` or a `DVD-1.iso` target and the
match is joined against the effective `response.url`. -/
def get_debian_link (resp : Except Unit Response) (version_type : String) : Option String :=
  match resp with
  | .error _ => none
  | .ok r =>
    match r.hrefs.find? (fun href =>
        isSubstrS "netinst.iso" href || isSubstrS "DVD-1.iso" href) with
    | some href => some (urljoin r.url href)
    | none => none

/-- `LinkManager.get_mint_link` (lines 79-89). -/
def get_mint_link (resp : Except Unit Response) (version edition : String) : Option String :=
  match resp with
  | .error _ => none
  | .ok r =>
    match r.hrefs.find? (fun href =>
        isSubstrS ("linuxmint-" ++ version ++ "-" ++ edition ++ "-64bit.iso") (strToLower href)) with
    | some href =>
      some (urljoin ("https://mirrors.edge.kernel.org/linuxmint/stable/" ++ version ++ "/") href)
    | none => none

/-- The fixed direct-download URL tried first by `get_elementary_link`. -/
def elementaryDirectUrl : String :=
  "https://objects.githubusercontent.com/github-production-release-asset-2e65be/elementary-os-7.1-stable.20231031.iso"

/-- The CDN fallback URL tried second by `get_elementary_link`. -/
def elementaryFallbackUrl : String :=
  "https://sgp1.dl.elementary.io/elementary-os-7.1-stable.20231031.iso"

/-- `LinkManager.get_elementary_link` (lines 91-116).  `head url` is the status
of `requests.head(url)` (or a raised exception).  On a 200 the probed URL is
returned; if both probes answer non-200 the download page is returned; a
raised exception is caught and gives `None`. -/
def get_elementary_link (head : String → Except Unit Nat) : Option String :=
  match head elementaryDirectUrl with
  | .error _ => none
  | .ok s =>
    if s == 200 then some elementaryDirectUrl
    else
      match head elementaryFallbackUrl with
      | .error _ => none
      | .ok s2 =>
        if s2 == 200 then some elementaryFallbackUrl
        else some "https://elementary.io/download"

/-- The shared shape of the two "find the latest directory label" loops
(`get_popos_link` lines 128-133, `get_arch_link` lines 194-201): one pass over
the anchors, keeping the first label that matches `p` and replacing it whenever
a later matching label is `gt`-greater than the current one. -/
def select_step (p : String → Bool) (gt : String → String → Bool)
    (latest : Option String) (href : String) : Option String :=
  if p href then
    match latest with
    | none => some href
    | some lb => if gt href lb then some href else some lb
  else latest

/-- One pass of `select_step` over the anchor list, starting from `None`. -/
def select_latest (p : String → Bool) (gt : String → String → Bool)
    (hrefs : List String) : Option String :=
  hrefs.foldl (select_step p gt) none

/-- The build-number scan of `get_popos_link`: digit-only labels, compared by
`int(href) > int(latest_build)`. -/
def popos_latest_build (hrefs : List String) : Option String :=
  select_latest pyIsdigit pyIntGt hrefs

/-- `LinkManager.get_popos_link` (lines 118-147).  `get` is the directory
listing GET, `head` probes the constructed ISO URL. -/
def get_popos_link (get : Except Unit Response) (head : String → Except Unit Nat)
    (version : String) (nvidia : Bool) : Option String :=
  match get with
  | .error _ => none
  | .ok resp =>
    if resp.status_code == 200 then
      match popos_latest_build resp.hrefs with
      | some latest_build =>
        let gpu_type := if nvidia then "nvidia" else "intel"
        let base_url := "https://iso.pop-os.org"
        let path := "/" ++ version ++ "/amd64/" ++ gpu_type
        let filename :=
          "pop-os_" ++ version ++ "_amd64_" ++ gpu_type ++ "_" ++ latest_build ++ ".iso"
        let final_url := base_url ++ path ++ "/" ++ latest_build ++ "/" ++ filename
        match head final_url with
        | .error _ => none
        | .ok s => if s == 200 then some final_url else none
      | none => none
    else none

/-- `LinkManager.get_manjaro_link` (lines 149-161): scans every anchor and
keeps the last `.iso` target that is not a `minimal` image. -/
def get_manjaro_link (resp : Except Unit Response) (edition : String) : Option String :=
  match resp with
  | .error _ => none
  | .ok r =>
    r.hrefs.foldl (fun latest href =>
      if strEndsWith href ".iso" && !(isSubstrS "minimal" (strToLower href)) then
        some (urljoin "https://download.manjaro.org" href)
      else latest) none

/-- `LinkManager.get_kali_link` (lines 163-175). -/
def get_kali_link (resp : Except Unit Response) (version_type : String) : Option String :=
  match resp with
  | .error _ => none
  | .ok r =>
    match r.hrefs.find? (fun href =>
        (version_type == "live" && isSubstrS "live-amd64.iso" href) ||
        (version_type == "installer" && isSubstrS "installer-amd64.iso" href)) with
    | some href => some (urljoin "https://cdimage.kali.org/current/" href)
    | none => none

/-- `LinkManager.get_zorin_link` (lines 177-184): fixed download-page URLs. -/
def get_zorin_link (edition : String) : Option String :=
  if strToLower edition == "core" then some "https://zorinos.com/download/17/core"
  else if strToLower edition == "lite" then some "https://zorinos.com/download/17/lite"
  else none

/-- The `re.match(r'\d{4}\.\d{2}\.\d{2}', href)` test of `get_arch_link`:
the label starts with four digits, a dot, two digits, a dot, two digits. -/
def arch_date_match (s : String) : Bool :=
  match s.data with
  | c1 :: c2 :: c3 :: c4 :: d1 :: c5 :: c6 :: d2 :: c7 :: c8 :: _ =>
    c1.isDigit && c2.isDigit && c3.isDigit && c4.isDigit && d1 == '.' &&
    c5.isDigit && c6.isDigit && d2 == '.' && c7.isDigit && c8.isDigit
  | _ => false

/-- The version-directory scan of `get_arch_link`: date-like labels compared by
Python string `>`. -/
def arch_latest_version (hrefs : List String) : Option String :=
  select_latest arch_date_match pyStrGtS hrefs

/-- The primary Arch mirror index URL. -/
def archBaseUrl : String := "https://archlinux.c3sl.ufpr.br/iso/"

/-- The two fallback mirrors of `get_arch_link`, in priority order. -/
def archFallbackMirrors : List String :=
  ["https://mirror.rackspace.com/archlinux/iso/latest/",
   "https://mirrors.kernel.org/archlinux/iso/latest/"]

/-- One iteration of the fallback-mirror loop of `get_arch_link`
(lines 221-230): a raised GET is swallowed by `continue`, otherwise the first
`archlinux-*.iso` anchor is returned. -/
def arch_try_mirror (get : String → Except Unit Response) (mirror : String) : Option String :=
  match get mirror with
  | .error _ => none
  | .ok r =>
    match r.hrefs.find? (fun href =>
        strStartsWith href "archlinux-" && strEndsWith href ".iso") with
    | some href => some (urljoin mirror href)
    | none => none

/-- The fallback-mirror loop of `get_arch_link`: mirrors tried in order,
stopping at the first success. -/
def arch_fallbacks (get : String → Except Unit Response) : Option String :=
  match arch_try_mirror get (archFallbackMirrors.getD 0 "") with
  | some u => some u
  | none =>
    match arch_try_mirror get (archFallbackMirrors.getD 1 "") with
    | some u => some u
    | none => none

/-- `LinkManager.get_arch_link` (lines 186-235).  A raised GET against the
primary mirror (or against the chosen version directory) escapes to the outer
`except` and gives `None` without trying the fallbacks; an anchor set without
a usable ISO falls through to the fallback mirrors. -/
def get_arch_link (get : String → Except Unit Response) : Option String :=
  match get archBaseUrl with
  | .error _ => none
  | .ok resp =>
    match arch_latest_version resp.hrefs with
    | some latest_version =>
      match get (urljoin archBaseUrl latest_version) with
      | .error _ => none
      | .ok resp2 =>
        match resp2.hrefs.find? (fun href =>
            strEndsWith href ".iso" && isSubstrS "archlinux-" href) with
        | some href => some (urljoin (urljoin archBaseUrl latest_version) href)
        | none => arch_fallbacks get
    | none => arch_fallbacks get

/-- The exception a cache load can leak (`datetime.fromisoformat` raising
`ValueError` is the only uncaught one in `load_cache`). -/
inductive PyError
  | valueError
deriving DecidableEq

/-- The `timestamp` field of the persisted record: either a string that
`datetime.fromisoformat` parses to the instant `t`, or a string it rejects. -/
inductive TsField
  | validIso (t : Int)
  | invalidIso
deriving DecidableEq

/-- The persisted key-to-URL mapping, in insertion order; a `none` value is
Python's `None` (JSON `null`). -/
abbrev Links := List (String × Option String)

/-- What loading the cache file observes: no file (`FileNotFoundError`),
not JSON (`json.JSONDecodeError`), or a decoded object whose `timestamp` and
`links` keys may each be missing (`KeyError`). -/
inductive CacheState
  | missing
  | notJson
  | record (ts : Option TsField) (links : Option Links)
deriving DecidableEq

/-- `self.cache_duration = timedelta(hours=24)`, in seconds. -/
def cache_duration : Int := 24 * 3600

/-- `LinkManager.load_cache` (lines 23-31), at current time `now`.
`FileNotFoundError`, `json.JSONDecodeError` and `KeyError` are caught and give
`ok none` (cache miss); a `ValueError` from `datetime.fromisoformat` is not in
the `except` tuple and escapes to the caller. -/
def load_cache (st : CacheState) (now : Int) : Except PyError (Option Links) :=
  match st with
  | .missing => .ok none
  | .notJson => .ok none
  | .record ts links =>
    match ts with
    | none => .ok none
    | some .invalidIso => .error .valueError
    | some (.validIso t) =>
      if t + cache_duration > now then
        match links with
        | none => .ok none
        | some l => .ok (some l)
      else .ok none

/-- The outcomes of the per-distribution strategy methods, as `update_links`
sees them (`self.get_ubuntu_link(version)` and so on). -/
structure Resolvers where
  get_ubuntu : String → Option String
  get_fedora : String → Option String
  get_debian : String → Option String
  get_mint : String → String → Option String
  get_elementary : Option String
  get_popos : String → Bool → Option String
  get_manjaro : String → Option String
  get_kali : String → Option String
  get_zorin : String → Option String
  get_arch : Option String

/-- `if link: updated_links[key] = link` — the guarded insertion used for every
strategy except Debian (`None` and `""` are falsy). -/
def addIf (links : Links) (k : String) (v : Option String) : Links :=
  match v with
  | some u => if u == "" then links else links ++ [(k, some u)]
  | none => links

/-- The resolution body of `LinkManager.update_links` (lines 243-312): the
fresh `updated_links` mapping in insertion order.  Note the Debian pair is
inserted unconditionally via `updated_links.update(debian_links)`, without the
`if link:` guard the other strategies get. -/
def build_links (r : Resolvers) : Links :=
  let links : Links := []
  let links := ["24.04", "22.04"].foldl
    (fun l v => addIf l ("ubuntu_" ++ v) (r.get_ubuntu v)) links
  let links := ["40", "39"].foldl
    (fun l v => addIf l ("fedora_" ++ v) (r.get_fedora v)) links
  let links := links ++ [("debian_net", r.get_debian "NET"), ("debian_dvd", r.get_debian "DVD")]
  let links := ["cinnamon", "mate", "xfce"].foldl
    (fun l e => addIf l ("mint_21.3_" ++ e) (r.get_mint "21.3" e)) links
  let links := addIf links "elementary_os" r.get_elementary
  let links := ["22.04"].foldl
    (fun l v => addIf (addIf l ("popos_" ++ v) (r.get_popos v false))
      ("popos_" ++ v ++ "_nvidia") (r.get_popos v true)) links
  let links := ["kde", "gnome", "xfce"].foldl
    (fun l e => addIf l ("manjaro_" ++ e) (r.get_manjaro e)) links
  let links := ["live", "installer"].foldl
    (fun l t => addIf l ("kali_" ++ t) (r.get_kali t)) links
  let links := ["core", "lite"].foldl
    (fun l e => addIf l ("zorin_" ++ e) (r.get_zorin e)) links
  let links := addIf links "arch_latest" r.get_arch
  links

/-- `LinkManager.update_links` (lines 237-315): under the lock, load the cache;
a truthy (non-`None`, nonempty) cached mapping is returned as is; otherwise
every strategy is invoked, the result is persisted via `save_cache` (a record
with the current timestamp) and returned.  The result pairs the returned
mapping with the cache state after the call. -/
def lm_update_links (st : CacheState) (now : Int) (r : Resolvers) :
    Except PyError (Links × CacheState) :=
  match load_cache st now with
  | .error e => .error e
  | .ok cached =>
    match cached with
    | some l =>
      if l = [] then
        let updated := build_links r
        .ok (updated, .record (some (.validIso now)) (some updated))
      else .ok (l, st)
    | none =>
      let updated := build_links r
      .ok (updated, .record (some (.validIso now)) (some updated))

/-- A `Resolvers` bundle in which every strategy fails (network down). -/
def no_resolvers : Resolvers :=
  ⟨fun _ => none, fun _ => none, fun _ => none, fun _ _ => none, none,
   fun _ _ => none, fun _ => none, fun _ => none, fun _ => none, none⟩

/-- The `url`/`checksum` data of `OSInstaller.os_data` (lines 320-480), one
field per (distribution, version) entry, in source order.  A `url` is
`Option String` because the merge can store the `None` a strategy returned;
icons and notes are static presentation data and are not modelled. -/
structure Catalog where
  ubuntu_24_04_url : Option String
  ubuntu_24_04_checksum : String
  ubuntu_22_04_url : Option String
  ubuntu_22_04_checksum : String
  mint_cinnamon_url : Option String
  mint_cinnamon_checksum : String
  mint_mate_url : Option String
  mint_mate_checksum : String
  mint_xfce_url : Option String
  mint_xfce_checksum : String
  popos_22_04_url : Option String
  popos_22_04_checksum : String
  popos_22_04_nvidia_url : Option String
  popos_22_04_nvidia_checksum : String
  fedora_40_url : Option String
  fedora_40_checksum : String
  fedora_39_url : Option String
  fedora_39_checksum : String
  debian_net_url : Option String
  debian_net_checksum : String
  debian_dvd_url : Option String
  debian_dvd_checksum : String
  manjaro_kde_url : Option String
  manjaro_kde_checksum : String
  manjaro_gnome_url : Option String
  manjaro_gnome_checksum : String
  manjaro_xfce_url : Option String
  manjaro_xfce_checksum : String
  zorin_core_url : Option String
  zorin_core_checksum : String
  zorin_lite_url : Option String
  zorin_lite_checksum : String
  elementary_url : Option String
  elementary_checksum : String
  kali_live_url : Option String
  kali_live_checksum : String
  kali_installer_url : Option String
  kali_installer_checksum : String
  windows_11_url : Option String
  windows_11_checksum : String
  windows_10_url : Option String
  windows_10_checksum : String
  arch_url : Option String
  arch_checksum : String
deriving DecidableEq

attribute [ext] Catalog

/-- The initial `os_data` skeleton built in `OSInstaller.__init__`:
every checksum is the placeholder `"sha256:..."`; Mint, Zorin, Windows and
Arch URLs are pre-seeded, the rest start empty. -/
def initial_os_data : Catalog where
  ubuntu_24_04_url := some ""
  ubuntu_24_04_checksum := "sha256:..."
  ubuntu_22_04_url := some ""
  ubuntu_22_04_checksum := "sha256:..."
  mint_cinnamon_url := some "https://mirrors.edge.kernel.org/linuxmint/stable/21.3/linuxmint-21.3-cinnamon-64bit.iso"
  mint_cinnamon_checksum := "sha256:..."
  mint_mate_url := some "https://mirrors.edge.kernel.org/linuxmint/stable/21.3/linuxmint-21.3-mate-64bit.iso"
  mint_mate_checksum := "sha256:..."
  mint_xfce_url := some "https://mirrors.edge.kernel.org/linuxmint/stable/21.3/linuxmint-21.3-xfce-64bit.iso"
  mint_xfce_checksum := "sha256:..."
  popos_22_04_url := some ""
  popos_22_04_checksum := "sha256:..."
  popos_22_04_nvidia_url := some ""
  popos_22_04_nvidia_checksum := "sha256:..."
  fedora_40_url := some ""
  fedora_40_checksum := "sha256:..."
  fedora_39_url := some ""
  fedora_39_checksum := "sha256:..."
  debian_net_url := some ""
  debian_net_checksum := "sha256:..."
  debian_dvd_url := some ""
  debian_dvd_checksum := "sha256:..."
  manjaro_kde_url := some ""
  manjaro_kde_checksum := "sha256:..."
  manjaro_gnome_url := some ""
  manjaro_gnome_checksum := "sha256:..."
  manjaro_xfce_url := some ""
  manjaro_xfce_checksum := "sha256:..."
  zorin_core_url := some "https://zorinos.com/download/17/core"
  zorin_core_checksum := "sha256:..."
  zorin_lite_url := some "https://zorinos.com/download/17/lite"
  zorin_lite_checksum := "sha256:..."
  elementary_url := some ""
  elementary_checksum := "sha256:..."
  kali_live_url := some ""
  kali_live_checksum := "sha256:..."
  kali_installer_url := some ""
  kali_installer_checksum := "sha256:..."
  windows_11_url := some "https://www.microsoft.com/software-download/windows11"
  windows_11_checksum := "sha256:..."
  windows_10_url := some "https://www.microsoft.com/software-download/windows10"
  windows_10_checksum := "sha256:..."
  arch_url := some "https://archlinux.c3sl.ufpr.br/iso/2024.11.01/archlinux-2024.11.01-x86_64.iso"
  arch_checksum := "sha256:..."

/-- `key in links` plus `links[key]` on the mapping: `some v` when the key is
present with stored value `v` (itself an `Option String`), `none` when the key
is absent. -/
def lookupEntry (links : Links) (k : String) : Option (Option String) :=
  (links.find? (fun p => p.1 == k)).map (fun p => p.2)

/-- One `if key in links: entry["url"] = links[key]` statement of
`OSInstaller.update_links`: the stored value when the key is present,
the previous URL otherwise. -/
def setIfPresent (links : Links) (k : String) (old : Option String) : Option String :=
  match lookupEntry links k with
  | some v => v
  | none => old

/-- `OSInstaller.update_links` merge body (lines 493-522): the thirteen
conditional URL overwrites, in source order.  Keys the merge has no `if` for
(`fedora_39`, `debian_dvd`, the `mint_*` and `zorin_*` keys) leave their
catalog entries untouched even when present in the mapping. -/
def osinstaller_update_links (links : Links) (c : Catalog) : Catalog :=
  let c := { c with ubuntu_24_04_url := setIfPresent links "ubuntu_24.04" c.ubuntu_24_04_url }
  let c := { c with ubuntu_22_04_url := setIfPresent links "ubuntu_22.04" c.ubuntu_22_04_url }
  let c := { c with fedora_40_url := setIfPresent links "fedora_40" c.fedora_40_url }
  let c := { c with debian_net_url := setIfPresent links "debian_net" c.debian_net_url }
  let c := { c with popos_22_04_url := setIfPresent links "popos_22.04" c.popos_22_04_url }
  let c := { c with popos_22_04_nvidia_url := setIfPresent links "popos_22.04_nvidia" c.popos_22_04_nvidia_url }
  let c := { c with manjaro_kde_url := setIfPresent links "manjaro_kde" c.manjaro_kde_url }
  let c := { c with manjaro_gnome_url := setIfPresent links "manjaro_gnome" c.manjaro_gnome_url }
  let c := { c with manjaro_xfce_url := setIfPresent links "manjaro_xfce" c.manjaro_xfce_url }
  let c := { c with kali_live_url := setIfPresent links "kali_live" c.kali_live_url }
  let c := { c with kali_installer_url := setIfPresent links "kali_installer" c.kali_installer_url }
  let c := { c with elementary_url := setIfPresent links "elementary_os" c.elementary_url }
  let c := { c with arch_url := setIfPresent links "arch_latest" c.arch_url }
  c

/-- The headers of a HEAD response as `verify_download_link` reads them:
`headers.get('content-type', '')` and `headers.get('content-length')` are
strings when present. -/
structure HeadResponse where
  status_code : Nat
  content_type : Option String
  content_length : Option String
deriving DecidableEq

/-- The outcome of `session.head(url, allow_redirects=True)`: a response, a
raised `requests.exceptions.RequestException`, or any other raised exception
(for instance the `ValueError` from `int(content_length)`, which the code
only catches at this level). -/
inductive HeadOutcome
  | success (r : HeadResponse)
  | requestError (msg : String)
  | otherError (msg : String)

/-- `any(domain in url.lower() for domain in ['microsoft.com', 'zorinos.com',
'elementary.io'])` — a substring test over the whole URL. -/
def domainInUrl (url : String) : Bool :=
  ["microsoft.com", "zorinos.com", "elementary.io"].any (fun d => isSubstrS d (strToLower url))

/-- `OSInstaller.verify_download_link` (lines 602-630). -/
def verify_download_link (url : String) (head : HeadOutcome) : Bool × String :=
  if url == "" then (false, "No download link available")
  else
    match head with
    | .requestError m => (false, "Connection error: " ++ m)
    | .otherError m => (false, "Verification error: " ++ m)
    | .success response =>
      if response.status_code == 200 then
        let content_type := strToLower (response.content_type.getD "")
        let content_length := response.content_length
        if isSubstrS "iso" content_type || isSubstrS "octet-stream" content_type then
          (true, "Ready for download")
        else if truthyStr content_length then
          match pyParseInt (content_length.getD "") with
          | none => (false, "Verification error: invalid literal for int")
          | some n =>
            if n > 100000000 then (true, "Ready for download")
            else if domainInUrl url then (true, "Redirect to official download page")
            else (false, "Invalid ISO file")
        else if domainInUrl url then (true, "Redirect to official download page")
        else (false, "Invalid ISO file")
      else (false, "Link error: HTTP " ++ toString response.status_code)

/-- Modelled from the spec: the claim judges usability by "the URL's host"
being a known redirect-only page.  The host of a URL is the part between the
scheme separator `://` and the next `/`. -/
def specRestAfter (needle : List Char) : List Char → Option (List Char)
  | [] => none
  | c :: t =>
    if listStarts needle (c :: t) then some ((c :: t).drop needle.length)
    else specRestAfter needle t

/-- Modelled from the spec: the host component of a URL. -/
def specUrlHost (url : String) : String :=
  match specRestAfter "://".data url.data with
  | some rest => String.mk (rest.takeWhile (fun c => c != '/'))
  | none => String.mk (url.data.takeWhile (fun c => c != '/'))

/-- Modelled from the spec: "the URL's host is a known redirect-only
distribution page" — the host equals a known domain or is a subdomain of it. -/
def specHostIsKnown (url : String) : Bool :=
  ["microsoft.com", "zorinos.com", "elementary.io"].any (fun d =>
    strToLower (specUrlHost url) == d || strEndsWith (strToLower (specUrlHost url)) ("." ++ d))

/-- The content-type test of the code: `'iso' in ct or 'octet-stream' in ct`
on the lowercased header. -/
def ctIndicatesIso (r : HeadResponse) : Bool :=
  isSubstrS "iso" (strToLower (r.content_type.getD "")) ||
    isSubstrS "octet-stream" (strToLower (r.content_type.getD ""))

/-- The content-length test of the code: header present, nonempty, parses,
and exceeds 100 MB. -/
def clExceeds100MB (r : HeadResponse) : Bool :=
  match r.content_length with
  | none => false
  | some s =>
    if s == "" then false
    else
      match pyParseInt s with
      | none => false
      | some n => decide (n > 100000000)

/-- Modelled from the spec: the claim's usability classification — status 200
and (ISO/binary content-type, or content-length over 100 MB, or the URL's
host is a known redirect-only distribution page). -/
def spec_verify_link_usable (url : String) (r : HeadResponse) : Bool :=
  r.status_code == 200 && (ctIndicatesIso r || clExceeds100MB r || specHostIsKnown url)

/-- Truncation to a 32-bit word. -/
def w32 (n : Nat) : Nat := n % 4294967296

/-- 32-bit right rotation (operand assumed below `2^32`). -/
def rotr32 (n x : Nat) : Nat := w32 (x >>> n ||| x <<< (32 - n))

/-- SHA-256 `Ch`. -/
def sha_ch (x y z : Nat) : Nat :=
  Nat.xor (Nat.land x y) (Nat.land (Nat.xor x 4294967295) z)

/-- SHA-256 `Maj`. -/
def sha_maj (x y z : Nat) : Nat :=
  Nat.xor (Nat.xor (Nat.land x y) (Nat.land x z)) (Nat.land y z)

/-- SHA-256 big sigma 0. -/
def bigSigma0 (x : Nat) : Nat := Nat.xor (Nat.xor (rotr32 2 x) (rotr32 13 x)) (rotr32 22 x)

/-- SHA-256 big sigma 1. -/
def bigSigma1 (x : Nat) : Nat := Nat.xor (Nat.xor (rotr32 6 x) (rotr32 11 x)) (rotr32 25 x)

/-- SHA-256 small sigma 0. -/
def smallSigma0 (x : Nat) : Nat := Nat.xor (Nat.xor (rotr32 7 x) (rotr32 18 x)) (x >>> 3)

/-- SHA-256 small sigma 1. -/
def smallSigma1 (x : Nat) : Nat := Nat.xor (Nat.xor (rotr32 17 x) (rotr32 19 x)) (x >>> 10)

/-- The 64 SHA-256 round constants. -/
def shaK : List Nat :=
  [1116352408, 1899447441, 3049323471, 3921009573, 961987163, 1508970993,
   2453635748, 2870763221, 3624381080, 310598401, 607225278, 1426881987,
   1925078388, 2162078206, 2614888103, 3248222580, 3835390401, 4022224774,
   264347078, 604807628, 770255983, 1249150122, 1555081692, 1996064986,
   2554220882, 2821834349, 2952996808, 3210313671, 3336571891, 3584528711,
   113926993, 338241895, 666307205, 773529912, 1294757372, 1396182291,
   1695183700, 1986661051, 2177026350, 2456956037, 2730485921, 2820302411,
   3259730800, 3345764771, 3516065817, 3600352804, 4094571909, 275423344,
   430227734, 506948616, 659060556, 883997877, 958139571, 1322822218,
   1537002063, 1747873779, 1955562222, 2024104815, 2227730452, 2361852424,
   2428436474, 2756734187, 3204031479, 3329325298]

/-- The SHA-256 initial hash state. -/
def shaH0 : List Nat :=
  [1779033703, 3144134277, 1013904242, 2773480762,
   1359893119, 2600822924, 528734635, 1541459225]

/-- SHA-256 padding: append `0x80`, zeros, and the 64-bit big-endian bit
length, reaching a multiple of 64 bytes. -/
def padMessage (msg : List Nat) : List Nat :=
  let len := msg.length
  let bitLen := 8 * len
  let padZeros := (119 - len % 64) % 64
  msg ++ [128] ++ List.replicate padZeros 0 ++
    (List.range 8).map (fun i => (bitLen >>> (8 * (7 - i))) % 256)

/-- Fuel-driven worker for `toBlocks`; the fuel is the length of the list,
which bounds the number of 64-byte blocks. -/
def toBlocksAux : Nat → List Nat → List (List Nat)
  | 0, _ => []
  | _, [] => []
  | fuel + 1, l => l.take 64 :: toBlocksAux fuel (l.drop 64)

/-- Split a byte list into 64-byte blocks. -/
def toBlocks (l : List Nat) : List (List Nat) := toBlocksAux l.length l

/-- The sixteen big-endian 32-bit words of one block. -/
def wordsOfBlock (b : List Nat) : List Nat :=
  (List.range 16).map (fun i =>
    b.getD (4 * i) 0 * 16777216 + b.getD (4 * i + 1) 0 * 65536 +
      b.getD (4 * i + 2) 0 * 256 + b.getD (4 * i + 3) 0)

/-- One message-schedule extension step. -/
def extendStep (ws : List Nat) : List Nat :=
  let n := ws.length
  ws ++ [w32 (smallSigma1 (ws.getD (n - 2) 0) + ws.getD (n - 7) 0 +
    smallSigma0 (ws.getD (n - 15) 0) + ws.getD (n - 16) 0)]

/-- The 64-entry message schedule of a block. -/
def scheduleOf (b : List Nat) : List Nat := Nat.repeat extendStep 48 (wordsOfBlock b)

/-- One SHA-256 compression round on the eight-word working state. -/
def shaRound (st : Nat × Nat × Nat × Nat × Nat × Nat × Nat × Nat) (kw : Nat × Nat) :
    Nat × Nat × Nat × Nat × Nat × Nat × Nat × Nat :=
  match st with
  | (a, b, c, d, e, f, g, h) =>
    let t1 := w32 (h + bigSigma1 e + sha_ch e f g + kw.1 + kw.2)
    let t2 := w32 (bigSigma0 a + sha_maj a b c)
    (w32 (t1 + t2), a, b, c, w32 (d + t1), e, f, g)

/-- Compress one block into the hash state. -/
def shaCompress (hs : List Nat) (block : List Nat) : List Nat :=
  let ws := scheduleOf block
  let a0 := hs.getD 0 0
  let b0 := hs.getD 1 0
  let c0 := hs.getD 2 0
  let d0 := hs.getD 3 0
  let e0 := hs.getD 4 0
  let f0 := hs.getD 5 0
  let g0 := hs.getD 6 0
  let h0 := hs.getD 7 0
  match (shaK.zip ws).foldl shaRound (a0, b0, c0, d0, e0, f0, g0, h0) with
  | (a, b, c, d, e, f, g, h) =>
    [w32 (a0 + a), w32 (b0 + b), w32 (c0 + c), w32 (d0 + d),
     w32 (e0 + e), w32 (f0 + f), w32 (g0 + g), w32 (h0 + h)]

/-- Lowercase hex digit. -/
def hexChar (n : Nat) : Char :=
  if n < 10 then Char.ofNat (48 + n) else Char.ofNat (87 + n)

/-- Eight lowercase hex digits of a 32-bit word, most significant first. -/
def wordHex (w : Nat) : List Char :=
  (List.range 8).map (fun i => hexChar ((w >>> (4 * (7 - i))) % 16))

/-- `hashlib.sha256(data).hexdigest()`: the lowercase hex SHA-256 digest of a
byte list.  Streaming the file in 4096-byte blocks through `sha256.update`
hashes exactly the concatenated content, so the digest is a function of the
full byte list. -/
def sha256hex (msg : List Nat) : String :=
  let hs := (toBlocks (padMessage msg)).foldl shaCompress shaH0
  String.mk ((hs.map wordHex).flatten)

/-- `OSInstaller.verify_checksum` (lines 575-600).  `file` is what opening and
reading `file_path` yields (`Except.error` models a raised I/O exception,
caught and reported as `False`).  An empty or placeholder `expected_checksum`
skips verification and returns `True`; otherwise the computed digest is
compared case-insensitively against the expected value with every occurrence
of `'sha256:'` removed (`str.replace` replaces everywhere, not just a
prefix). -/
def verify_checksum (file : Except Unit (List Nat)) (expected_checksum : String) : Bool :=
  if expected_checksum == "" || expected_checksum == "sha256:..." then true
  else
    match file with
    | .error _ => false
    | .ok content =>
      let calculated_hash := sha256hex content
      let expected2 := pyRemoveAll expected_checksum "sha256:"
      strToLower calculated_hash == strToLower expected2

/-- Modelled from the spec: the claim's normalization — strip `'sha256:'` only
when it is a leading prefix of the expected value. -/
def specStripShaTag (e : String) : String :=
  if strStartsWith e "sha256:" then strDrop e 7 else e

/-- Modelled from the spec: the claim's verification predicate — sentinel or
empty passes; otherwise the digest must equal the expected value after
stripping an optional `'sha256:'` prefix, case-insensitively; unreadable files
fail. -/
def spec_verify_checksum (file : Except Unit (List Nat)) (expected_checksum : String) : Bool :=
  if expected_checksum == "" || expected_checksum == "sha256:..." then true
  else
    match file with
    | .error _ => false
    | .ok content => strToLower (sha256hex content) == strToLower (specStripShaTag expected_checksum)

theorem setIfPresent_idem (links : Links) (k : String) (old : Option String) :
    setIfPresent links k (setIfPresent links k old) = setIfPresent links k old := by
  unfold setIfPresent
  cases lookupEntry links k <;> rfl

theorem load_cache_record_fresh (t now : Int) (links : Links)
    (h : t + cache_duration > now) :
    load_cache (.record (some (.validIso t)) (some links)) now = .ok (some links) := by
  simp only [load_cache]
  rw [if_pos h]

theorem load_cache_record_stale (t now : Int) (links : Option Links)
    (h : ¬ t + cache_duration > now) :
    load_cache (.record (some (.validIso t)) links) now = .ok none := by
  simp only [load_cache]
  rw [if_neg h]

/-- C1: the claim says loading a malformed persisted cache record — including
one whose `timestamp` is not a valid ISO-8601 string — is treated as a cache
miss and never raises to the caller.  The code catches `FileNotFoundError`,
`json.JSONDecodeError` and `KeyError`, but the `ValueError` raised by
`datetime.fromisoformat(cache['timestamp'])` on an invalid timestamp string is
not in the `except` tuple: `load_cache` (and with it `update_links`) raises it
to its caller. -/
theorem c1_load_cache_invalid_timestamp_raises :
    load_cache (.record (some .invalidIso) (some [])) 0 = .error .valueError ∧
    lm_update_links (.record (some .invalidIso) (some [])) 0 no_resolvers =
      .error .valueError := by
  exact ⟨rfl, rfl⟩

/-- C3: the claim says the merge overwrites the URL of every entry whose
resolution key is present in the resolved map, naming `fedora_39` among the
configured keys.  Evaluating `OSInstaller.update_links` on a map containing
only `fedora_39` leaves the catalog — in particular the Fedora 39 URL, still
the empty seed — completely unchanged: the merge has no branch for
`fedora_39` (nor for `debian_dvd`, `mint_*`, `zorin_*`). -/
theorem c3_merge_skips_resolved_keys :
    osinstaller_update_links [("fedora_39", some "https://example.org/Fedora-39.iso")]
        initial_os_data = initial_os_data ∧
    lookupEntry [("fedora_39", some "https://example.org/Fedora-39.iso")] "fedora_39" =
      some (some "https://example.org/Fedora-39.iso") ∧
    initial_os_data.fedora_39_url = some "" := by
  exact ⟨rfl, rfl, rfl⟩

/-- C4: the claim says the mapping persisted and returned by a fresh
resolution has entries only for strategies that succeeded, naming the
`debian_net`/`debian_dvd` keys.  With every strategy failing, the code still
inserts both Debian keys — mapped to `None` — because
`updated_links.update(debian_links)` has no `if link:` guard, and persists
them. -/
theorem c4_debian_keys_persisted_as_none :
    build_links no_resolvers = [("debian_net", none), ("debian_dvd", none)] ∧
    lm_update_links .missing 0 no_resolvers =
      .ok ([("debian_net", none), ("debian_dvd", none)],
        .record (some (.validIso 0)) (some [("debian_net", none), ("debian_dvd", none)])) := by
  exact ⟨rfl, rfl⟩

/-- C6: the catalog merge is idempotent — applying `OSInstaller.update_links`
twice with the same resolved map produces the catalog of a single
application. -/
theorem c6_merge_idempotent (links : Links) (c : Catalog) :
    osinstaller_update_links links (osinstaller_update_links links c) =
      osinstaller_update_links links c := by
  ext <;> simp [osinstaller_update_links, setIfPresent_idem]

/-- C5 counterexample: a 23-hour-old persisted record whose link mapping is
empty is NOT returned unchanged by `update_links` — `if cached_links:` is
falsy for an empty dict, so the code re-resolves and rewrites the cache even
though the record is fresh. -/
theorem c5_fresh_empty_cache_counterexample :
    lm_update_links (.record (some (.validIso (77 * 3600))) (some [])) (100 * 3600)
        no_resolvers =
      .ok ([("debian_net", none), ("debian_dvd", none)],
        .record (some (.validIso (100 * 3600)))
          (some [("debian_net", none), ("debian_dvd", none)])) ∧
    ([("debian_net", none), ("debian_dvd", none)] : Links) ≠ [] ∧
    CacheState.record (some (.validIso (100 * 3600)))
        (some [("debian_net", none), ("debian_dvd", none)]) ≠
      CacheState.record (some (.validIso (77 * 3600))) (some []) := by
  refine ⟨?_, by decide, by decide⟩
  rfl

/-- C5 (amended): a persisted record with a parseable timestamp is served by
`load_cache` exactly when `stored_timestamp + 24h > now`; a 23-hour-old record
whose mapping is nonempty is returned unchanged by `update_links` — with no
resolver invocation and no rewrite of the cache — while a 25-hour-old record
(like an empty one) triggers a fresh resolution that is persisted with the
current timestamp.  (The result is independent of the resolver outcomes `r`
exactly on the fresh path.) -/
theorem c5_cache_freshness (now t : Int) (links : Links) (r : Resolvers) :
    (load_cache (.record (some (.validIso t)) (some links)) now = .ok (some links) ↔
      t + cache_duration > now) ∧
    (links ≠ [] →
      lm_update_links (.record (some (.validIso (now - 23 * 3600))) (some links)) now r =
        .ok (links, .record (some (.validIso (now - 23 * 3600))) (some links))) ∧
    lm_update_links (.record (some (.validIso (now - 25 * 3600))) (some links)) now r =
      .ok (build_links r, .record (some (.validIso now)) (some (build_links r))) := by
  have hdur : cache_duration = 86400 := rfl
  refine ⟨⟨fun h => ?_, fun h => load_cache_record_fresh t now links h⟩, fun hne => ?_, ?_⟩
  · by_contra hc
    rw [load_cache_record_stale t now (some links) hc] at h
    exact Option.noConfusion (Except.ok.inj h)
  · have hfresh : now - 23 * 3600 + cache_duration > now := by omega
    simp only [lm_update_links, load_cache_record_fresh _ _ _ hfresh]
    rw [if_neg hne]
  · have hstale : ¬ now - 25 * 3600 + cache_duration > now := by omega
    simp only [lm_update_links, load_cache_record_stale _ _ _ hstale]

/-- C5 witness: the amended theorem applied at a concrete nonempty 23-hour-old
record. -/
theorem c5_cache_freshness_witness :
    lm_update_links (.record (some (.validIso ((0 : Int) - 23 * 3600)))
        (some [("k", some "u")])) 0 no_resolvers =
      .ok ([("k", some "u")],
        .record (some (.validIso ((0 : Int) - 23 * 3600))) (some [("k", some "u")])) :=
  (c5_cache_freshness 0 0 [("k", some "u")] no_resolvers).2.1 (by decide)

theorem pyStrLt_irrefl : ∀ l : List Char, pyStrLt l l = false := by
  intro l
  induction l with
  | nil => rfl
  | cons c t ih => simp [pyStrLt, ih]

theorem pyStrLt_trans : ∀ a b c : List Char,
    pyStrLt a b = true → pyStrLt b c = true → pyStrLt a c = true := by
  intro a
  induction a with
  | nil =>
    intro b c hab hbc
    cases b with
    | nil => simp [pyStrLt] at hab
    | cons y ys =>
      cases c with
      | nil => simp [pyStrLt] at hbc
      | cons z zs => rfl
  | cons x xs ih =>
    intro b c hab hbc
    cases b with
    | nil => simp [pyStrLt] at hab
    | cons y ys =>
      cases c with
      | nil => simp [pyStrLt] at hbc
      | cons z zs =>
        simp only [pyStrLt] at hab hbc ⊢
        rcases Nat.lt_trichotomy x.toNat y.toNat with hxy | hxy | hxy
        · rcases Nat.lt_trichotomy y.toNat z.toNat with hyz | hyz | hyz
          · rw [if_pos (by omega)]
          · rw [if_pos (by omega)]
          · rw [if_neg (by omega), if_pos hyz] at hbc
            simp at hbc
        · rw [if_neg (by omega), if_neg (by omega)] at hab
          rcases Nat.lt_trichotomy y.toNat z.toNat with hyz | hyz | hyz
          · rw [if_pos (by omega)]
          · rw [if_neg (by omega), if_neg (by omega)] at hbc
            rw [if_neg (by omega), if_neg (by omega)]
            exact ih ys zs hab hbc
          · rw [if_neg (by omega), if_pos hyz] at hbc
            simp at hbc
        · rw [if_neg (by omega), if_pos hxy] at hab
          simp at hab

theorem pyStrLt_cotrans : ∀ b a c : List Char,
    pyStrLt b c = true → pyStrLt b a = true ∨ pyStrLt a c = true := by
  intro b
  induction b with
  | nil =>
    intro a c hbc
    cases c with
    | nil => simp [pyStrLt] at hbc
    | cons z zs =>
      cases a with
      | nil => right; rfl
      | cons y ys => left; rfl
  | cons p ps ih =>
    intro a c hbc
    cases c with
    | nil => simp [pyStrLt] at hbc
    | cons z zs =>
      cases a with
      | nil => right; rfl
      | cons y ys =>
        simp only [pyStrLt] at hbc ⊢
        rcases Nat.lt_trichotomy p.toNat z.toNat with hpz | hpz | hpz
        · rcases Nat.lt_trichotomy p.toNat y.toNat with hpy | hpy | hpy
          · left; rw [if_pos hpy]
          · right; rw [if_pos (by omega)]
          · right; rw [if_pos (by omega)]
        · rw [if_neg (by omega), if_neg (by omega)] at hbc
          rcases Nat.lt_trichotomy p.toNat y.toNat with hpy | hpy | hpy
          · left; rw [if_pos hpy]
          · rcases ih ys zs hbc with h | h
            · left
              rw [if_neg (by omega), if_neg (by omega)]
              exact h
            · right
              rw [if_neg (by omega), if_neg (by omega)]
              exact h
          · right; rw [if_pos (by omega)]
        · rw [if_neg (by omega), if_pos hpz] at hbc
          simp at hbc

theorem pyStrGtS_irrefl (a : String) : pyStrGtS a a = false := pyStrLt_irrefl a.data

theorem pyStrGtS_trans (a b c : String) :
    pyStrGtS a b = true → pyStrGtS b c = true → pyStrGtS a c = true :=
  fun h1 h2 => pyStrLt_trans c.data b.data a.data h2 h1

theorem pyStrGtS_cotrans (a b c : String) :
    pyStrGtS a c = true → pyStrGtS a b = true ∨ pyStrGtS b c = true :=
  fun h => (pyStrLt_cotrans c.data b.data a.data h).symm

theorem pyIntGt_irrefl (a : String) : pyIntGt a a = false := by simp [pyIntGt]

theorem pyIntGt_trans (a b c : String) :
    pyIntGt a b = true → pyIntGt b c = true → pyIntGt a c = true := by
  simp only [pyIntGt, decide_eq_true_eq]
  omega

theorem pyIntGt_cotrans (a b c : String) :
    pyIntGt a c = true → pyIntGt a b = true ∨ pyIntGt b c = true := by
  simp only [pyIntGt, decide_eq_true_eq]
  omega

theorem select_fold_none (p : String → Bool) (gt : String → String → Bool) :
    ∀ (l : List String) (acc : Option String),
      (∀ u ∈ l, p u = false) → l.foldl (select_step p gt) acc = acc := by
  intro l
  induction l with
  | nil => intro acc _; rfl
  | cons x t ih =>
    intro acc h
    have hx : p x = false := h x (List.mem_cons_self x t)
    have hstep : select_step p gt acc x = acc := by simp [select_step, hx]
    rw [List.foldl_cons, hstep]
    exact ih acc (fun u hu => h u (List.mem_cons_of_mem x hu))

theorem select_fold_spec (p : String → Bool) (gt : String → String → Bool)
    (hirr : ∀ a, gt a a = false)
    (htr : ∀ a b c, gt a b = true → gt b c = true → gt a c = true)
    (hco : ∀ a b c, gt a c = true → gt a b = true ∨ gt b c = true) :
    ∀ (l : List String) (acc : Option String) (v : String),
      l.foldl (select_step p gt) acc = some v →
      (acc = some v ∨ (v ∈ l ∧ p v = true)) ∧
      (∀ u ∈ l, p u = true → gt u v = false) ∧
      (∀ b, acc = some b → gt b v = false) := by
  intro l
  induction l with
  | nil =>
    intro acc v hv
    refine ⟨Or.inl hv, by simp, ?_⟩
    intro b hb
    rw [hb] at hv
    injection hv with hv
    rw [hv]
    exact hirr v
  | cons x t ih =>
    intro acc v hv
    rw [List.foldl_cons] at hv
    obtain ⟨ih1, ih2, ih3⟩ := ih (select_step p gt acc x) v hv
    by_cases hx : p x = true
    · cases acc with
      | none =>
        have hstep : select_step p gt none x = some x := by simp [select_step, hx]
        rw [hstep] at ih1 ih3
        refine ⟨?_, ?_, ?_⟩
        · rcases ih1 with h | h
          · injection h with h
            right
            rw [← h]
            exact ⟨List.mem_cons_self x t, hx⟩
          · exact Or.inr ⟨List.mem_cons_of_mem x h.1, h.2⟩
        · intro u hu hpu
          rcases List.mem_cons.mp hu with h | hut
          · rw [h]
            exact ih3 x rfl
          · exact ih2 u hut hpu
        · intro b hb
          exact Option.noConfusion hb
      | some b0 =>
        by_cases hgt : gt x b0 = true
        · have hstep : select_step p gt (some b0) x = some x := by
            simp [select_step, hx, hgt]
          rw [hstep] at ih1 ih3
          refine ⟨?_, ?_, ?_⟩
          · rcases ih1 with h | h
            · injection h with h
              right
              rw [← h]
              exact ⟨List.mem_cons_self x t, hx⟩
            · exact Or.inr ⟨List.mem_cons_of_mem x h.1, h.2⟩
          · intro u hu hpu
            rcases List.mem_cons.mp hu with h | hut
            · rw [h]
              exact ih3 x rfl
            · exact ih2 u hut hpu
          · intro b hb
            injection hb with hb
            subst hb
            cases hb0v : gt b0 v with
            | false => rfl
            | true =>
              have hxv : gt x v = true := htr x b0 v hgt hb0v
              rw [ih3 x rfl] at hxv
              exact Bool.noConfusion hxv
        · have hstep : select_step p gt (some b0) x = some b0 := by
            simp [select_step, hx, hgt]
          rw [hstep] at ih1 ih3
          refine ⟨?_, ?_, ?_⟩
          · rcases ih1 with h | h
            · exact Or.inl h
            · exact Or.inr ⟨List.mem_cons_of_mem x h.1, h.2⟩
          · intro u hu hpu
            rcases List.mem_cons.mp hu with h | hut
            · cases hxv : gt u v with
              | false => rfl
              | true =>
                rcases hco u b0 v hxv with hc | hc
                · rw [h] at hc
                  exact absurd hc hgt
                · rw [ih3 b0 rfl] at hc
                  exact Bool.noConfusion hc
            · exact ih2 u hut hpu
          · intro b hb
            injection hb with hb
            subst hb
            exact ih3 b0 rfl
    · have hxf : p x = false := by
        revert hx
        cases p x <;> simp
      have hstep : select_step p gt acc x = acc := by simp [select_step, hxf]
      rw [hstep] at ih1 ih3
      refine ⟨?_, ?_, ih3⟩
      · rcases ih1 with h | h
        · exact Or.inl h
        · exact Or.inr ⟨List.mem_cons_of_mem x h.1, h.2⟩
      · intro u hu hpu
        rcases List.mem_cons.mp hu with h | hut
        · rw [h, hxf] at hpu
          exact Bool.noConfusion hpu
        · exact ih2 u hut hpu

theorem select_fold_isSome (p : String → Bool) (gt : String → String → Bool) :
    ∀ (l : List String) (acc : Option String),
      (acc.isSome = true ∨ ∃ u ∈ l, p u = true) →
      (l.foldl (select_step p gt) acc).isSome = true := by
  intro l
  induction l with
  | nil =>
    intro acc h
    rcases h with h | ⟨u, hu, _⟩
    · exact h
    · simp at hu
  | cons x t ih =>
    intro acc h
    rw [List.foldl_cons]
    apply ih
    by_cases hx : p x = true
    · left
      cases acc with
      | none => simp [select_step, hx]
      | some b0 =>
        simp only [select_step, hx, if_true]
        cases gt x b0 <;> simp
    · rcases h with hacc | ⟨u, hu, hpu⟩
      · left
        have hxf : p x = false := by
          revert hx
          cases p x <;> simp
        have : select_step p gt acc x = acc := by simp [select_step, hxf]
        rw [this]
        exact hacc
      · rcases List.mem_cons.mp hu with heq | hut
        · rw [heq] at hpu
          exact absurd hpu hx
        · exact Or.inr ⟨u, hut, hpu⟩

theorem select_latest_spec (p : String → Bool) (gt : String → String → Bool)
    (hirr : ∀ a, gt a a = false)
    (htr : ∀ a b c, gt a b = true → gt b c = true → gt a c = true)
    (hco : ∀ a b c, gt a c = true → gt a b = true ∨ gt b c = true)
    (hrefs : List String) :
    (∀ v, select_latest p gt hrefs = some v →
      v ∈ hrefs ∧ p v = true ∧ ∀ u ∈ hrefs, p u = true → gt u v = false) ∧
    ((∃ u ∈ hrefs, p u = true) → (select_latest p gt hrefs).isSome = true) := by
  constructor
  · intro v hv
    obtain ⟨h1, h2, _⟩ := select_fold_spec p gt hirr htr hco hrefs none v hv
    rcases h1 with h | h
    · exact Option.noConfusion h
    · exact ⟨h.1, h.2, h2⟩
  · intro h
    exact select_fold_isSome p gt hrefs none (Or.inr h)

/-- C2 counterexample: on the anchor labels `["9", "10"]` — digit-only build
numbers as served by the Pop!_OS directory listing — the code's selection
(`int(href) > int(latest_build)`) picks `"10"`, whereas selection by plain
string comparison (which the claim asserts) picks `"9"`. -/
theorem c2_popos_string_selection_counterexample :
    popos_latest_build ["9", "10"] = some "10" ∧
    select_latest pyIsdigit pyStrGtS ["9", "10"] = some "9" ∧
    ("10" : String) ≠ "9" := by
  refine ⟨rfl, rfl, by decide⟩

/-- C2 (amended): the Arch resolver selects the greatest matching `YYYY.MM.DD`
directory label under plain string comparison (`href > latest_version`), but
the Pop!_OS resolver selects the greatest digit-only build label under numeric
comparison (`int(href) > int(latest_build)`), not string comparison.  In each
case the selected label is a matching member of the listing that no other
matching label exceeds in the respective order, and a matching label exists
exactly when a selection is made. -/
theorem c2_latest_directory_selection (hrefs : List String) :
    (∀ v, arch_latest_version hrefs = some v →
      v ∈ hrefs ∧ arch_date_match v = true ∧
        ∀ u ∈ hrefs, arch_date_match u = true → pyStrGtS u v = false) ∧
    ((∃ u ∈ hrefs, arch_date_match u = true) → (arch_latest_version hrefs).isSome = true) ∧
    (∀ v, popos_latest_build hrefs = some v →
      v ∈ hrefs ∧ pyIsdigit v = true ∧
        ∀ u ∈ hrefs, pyIsdigit u = true → pyIntGt u v = false) ∧
    ((∃ u ∈ hrefs, pyIsdigit u = true) → (popos_latest_build hrefs).isSome = true) := by
  obtain ⟨ha1, ha2⟩ := select_latest_spec arch_date_match pyStrGtS pyStrGtS_irrefl
    pyStrGtS_trans pyStrGtS_cotrans hrefs
  obtain ⟨hp1, hp2⟩ := select_latest_spec pyIsdigit pyIntGt pyIntGt_irrefl
    pyIntGt_trans pyIntGt_cotrans hrefs
  exact ⟨ha1, ha2, hp1, hp2⟩

/-- C2 witness: the amended characterization applied to a concrete Arch
directory listing. -/
theorem c2_latest_directory_selection_witness :
    "2024.02.01" ∈ ["2024.01.01", "2024.02.01"] ∧
    arch_date_match "2024.02.01" = true ∧
    ∀ u ∈ ["2024.01.01", "2024.02.01"], arch_date_match u = true →
      pyStrGtS u "2024.02.01" = false :=
  (c2_latest_directory_selection ["2024.01.01", "2024.02.01"]).1 "2024.02.01" (by rfl)

/-- C7 counterexample: the code normalizes the expected value with
`replace('sha256:', '')`, removing every occurrence, not just a leading
prefix.  For the empty file (digest
`e3b0c44298fc1c149afbf4c8996fb92427ae41e4649b934ca495991b7852b855`) and an
expected value equal to that digest with `sha256:` spliced into the middle,
`verify_checksum` returns `True`, while the claim's prefix-stripping reading
(`spec_verify_checksum`) says `False`. -/
theorem c7_sha_tag_removed_everywhere_counterexample :
    verify_checksum (.ok [])
      "e3sha256:b0c44298fc1c149afbf4c8996fb92427ae41e4649b934ca495991b7852b855" = true ∧
    spec_verify_checksum (.ok [])
      "e3sha256:b0c44298fc1c149afbf4c8996fb92427ae41e4649b934ca495991b7852b855" = false := by
  constructor <;> decide

/-- C7 (amended): `verify_checksum` returns `True` when the expected checksum
is empty or the placeholder `sha256:...` (a warned pass); otherwise it returns
`False` on an unreadable file, and on a readable file it returns `True`
exactly when the streamed SHA-256 hex digest equals the expected value after
removing every occurrence of the exact substring `'sha256:'` (not only a
leading prefix), compared case-insensitively.  It never raises: every outcome
is a boolean. -/
theorem c7_verify_checksum_behavior (file : Except Unit (List Nat)) (expected : String)
    (content : List Nat) :
    verify_checksum file "" = true ∧
    verify_checksum file "sha256:..." = true ∧
    (expected ≠ "" → expected ≠ "sha256:..." →
      verify_checksum (.error ()) expected = false) ∧
    (expected ≠ "" → expected ≠ "sha256:..." →
      (verify_checksum (.ok content) expected = true ↔
        strToLower (sha256hex content) = strToLower (pyRemoveAll expected "sha256:"))) := by
  refine ⟨rfl, rfl, fun h1 h2 => ?_, fun h1 h2 => ?_⟩
  · unfold verify_checksum
    rw [if_neg (by simp [h1, h2])]
  · unfold verify_checksum
    rw [if_neg (by simp [h1, h2])]
    simp

/-- C7 witness: the amended theorem applied at concrete inputs — a prefixed
uppercase digest of the empty file passes, a digest of a different (one byte)
file fails, and an unreadable file fails. -/
theorem c7_verify_checksum_behavior_witness :
    verify_checksum (.ok [])
      "sha256:E3B0C44298FC1C149AFBF4C8996FB92427AE41E4649B934CA495991B7852B855" = true ∧
    verify_checksum (.ok [0])
      "e3b0c44298fc1c149afbf4c8996fb92427ae41e4649b934ca495991b7852b855" = false ∧
    verify_checksum (.error ()) "deadbeef" = false := by
  refine ⟨?_, ?_, ?_⟩
  · exact ((c7_verify_checksum_behavior (.ok [])
      "sha256:E3B0C44298FC1C149AFBF4C8996FB92427AE41E4649B934CA495991B7852B855" []).2.2.2
      (by decide) (by decide)).mpr (by decide)
  · have h := (c7_verify_checksum_behavior (.ok [0])
      "e3b0c44298fc1c149afbf4c8996fb92427ae41e4649b934ca495991b7852b855" [0]).2.2.2
      (by decide) (by decide)
    cases hb : verify_checksum (.ok [0])
        "e3b0c44298fc1c149afbf4c8996fb92427ae41e4649b934ca495991b7852b855" with
    | false => rfl
    | true => exact absurd (h.mp hb) (by decide)
  · exact (c7_verify_checksum_behavior (.error ()) "deadbeef" []).2.2.1
      (by decide) (by decide)

theorem listStarts_self : ∀ l : List Char, listStarts l l = true := by
  intro l
  induction l with
  | nil => rfl
  | cons c t ih => simp [listStarts, ih]

theorem isSubstrL_append (pre n : List Char) : isSubstrL n (pre ++ n) = true := by
  induction pre with
  | nil =>
    cases n with
    | nil => rfl
    | cons c t => simp [isSubstrL, listStarts_self]
  | cons c pre ih => simp [isSubstrL, ih]

theorem isSubstrS_append_self (n h : String) : isSubstrS n (h ++ n) = true := by
  unfold isSubstrS
  have hd : (h ++ n).data = h.data ++ n.data := rfl
  rw [hd]
  exact isSubstrL_append h.data n.data

/-- C8 counterexample: the code tests the known redirect-only domains as
substrings of the whole URL, not as the URL's host.  A URL whose path merely
contains `zorinos.com` is classified usable by the code, while the claim's
host-based reading (`spec_verify_link_usable`) classifies it unusable. -/
theorem c8_domain_substring_counterexample :
    verify_download_link "https://cdn.example.org/zorinos.com/file"
        (.success ⟨200, some "text/html", none⟩) =
      (true, "Redirect to official download page") ∧
    spec_verify_link_usable "https://cdn.example.org/zorinos.com/file"
      ⟨200, some "text/html", none⟩ = false := by
  constructor <;> decide

/-- C8 (amended): for a nonempty URL and a HEAD response whose content-length
header, when present and nonempty, is a parseable integer, the code classifies
the link usable exactly when the status is 200 and (the content-type contains
`iso`/`octet-stream`, or the content-length exceeds 100 MB, or the lowercased
URL contains a known redirect-only domain — `microsoft.com`, `zorinos.com`,
`elementary.io` — as a substring, not necessarily as its host); a non-200
status yields unusable with a reason string containing the status code. -/
theorem c8_verify_link_classification (url : String) (r : HeadResponse)
    (hurl : url ≠ "")
    (hcl : ∀ s, r.content_length = some s → s ≠ "" → (pyParseInt s).isSome = true) :
    ((verify_download_link url (.success r)).1 = true ↔
      (r.status_code = 200 ∧
        (ctIndicatesIso r = true ∨ clExceeds100MB r = true ∨ domainInUrl url = true))) ∧
    (r.status_code ≠ 200 →
      verify_download_link url (.success r) =
        (false, "Link error: HTTP " ++ toString r.status_code) ∧
      isSubstrS (toString r.status_code)
        ("Link error: HTTP " ++ toString r.status_code) = true) := by
  have hu : (url == "") = false := by simp [hurl]
  constructor
  · cases hs : r.status_code == 200 with
    | false =>
      have hs2 : r.status_code ≠ 200 := by simpa using hs
      simp [verify_download_link, hu, hs, hs2]
    | true =>
      have hs2 : r.status_code = 200 := by simpa using hs
      cases hct : ctIndicatesIso r with
      | true =>
        have hct2 := hct
        simp only [ctIndicatesIso] at hct2
        simp [verify_download_link, hu, hs, hs2, hct, hct2]
      | false =>
        have hct2 := hct
        simp only [ctIndicatesIso, Bool.or_eq_false_iff] at hct2
        cases hclv : r.content_length with
        | none =>
          have hcle : clExceeds100MB r = false := by simp [clExceeds100MB, hclv]
          cases hd : domainInUrl url with
          | true => simp [verify_download_link, hu, hs, hs2, hct, hct2, hclv, hd, truthyStr]
          | false => simp [verify_download_link, hu, hs, hs2, hct, hct2, hclv, hcle, hd, truthyStr]
        | some s =>
          by_cases hse : s = ""
          · subst hse
            have hcle : clExceeds100MB r = false := by simp [clExceeds100MB, hclv]
            cases hd : domainInUrl url with
            | true => simp [verify_download_link, hu, hs, hs2, hct, hct2, hclv, hd, truthyStr]
            | false =>
              simp [verify_download_link, hu, hs, hs2, hct, hct2, hclv, hcle, hd, truthyStr]
          · obtain ⟨n, hn⟩ := Option.isSome_iff_exists.mp (hcl s hclv hse)
            have hcle : clExceeds100MB r = decide (n > 100000000) := by
              simp [clExceeds100MB, hclv, hse, hn]
            by_cases hbig : n > 100000000
            · simp [verify_download_link, hu, hs, hs2, hct, hct2, hclv, hse, hn, hcle,
                hbig, truthyStr]
            · cases hd : domainInUrl url with
              | true =>
                simp [verify_download_link, hu, hs, hs2, hct, hct2, hclv, hse, hn, hcle,
                  hbig, hd, truthyStr]
              | false =>
                simp [verify_download_link, hu, hs, hs2, hct, hct2, hclv, hse, hn, hcle,
                  hbig, hd, truthyStr]
  · intro h
    have hs : (r.status_code == 200) = false := by simp [h]
    refine ⟨?_, isSubstrS_append_self _ _⟩
    simp [verify_download_link, hu, hs]

/-- C8 witness: the amended classification applied at concrete inputs — a
200 response with an unrecognized content-type but a 200 MB content-length is
usable; a 404 is unusable with the status code in the reason. -/
theorem c8_verify_link_classification_witness :
    (verify_download_link "https://example.org/big.bin"
        (.success ⟨200, some "application/x-unknown", some "200000000"⟩)).1 = true ∧
    verify_download_link "https://example.org/big.bin" (.success ⟨404, none, none⟩) =
      (false, "Link error: HTTP 404") ∧
    isSubstrS "404" "Link error: HTTP 404" = true := by
  refine ⟨?_, ?_, ?_⟩
  · exact (c8_verify_link_classification "https://example.org/big.bin"
      ⟨200, some "application/x-unknown", some "200000000"⟩ (by decide)
      (by intro s hs hne; injection hs with hs; subst hs; decide)).1.mpr
      ⟨rfl, Or.inr (Or.inl (by decide))⟩
  · exact ((c8_verify_link_classification "https://example.org/big.bin"
      ⟨404, none, none⟩ (by decide)
      (by intro s hs hne; exact absurd hs (by simp))).2 (by decide)).1
  · exact ((c8_verify_link_classification "https://example.org/big.bin"
      ⟨404, none, none⟩ (by decide)
      (by intro s hs hne; exact absurd hs (by simp))).2 (by decide)).2

theorem cond_fold_none (cond : String → Bool) (f : String → String) :
    ∀ (l : List String) (acc : Option String), (∀ h ∈ l, cond h = false) →
      l.foldl (fun latest href => if cond href then some (f href) else latest) acc = acc := by
  intro l
  induction l with
  | nil => intro acc _; rfl
  | cons x t ih =>
    intro acc h
    have hx : cond x = false := h x (List.mem_cons_self x t)
    rw [List.foldl_cons]
    have hstep : (if cond x then some (f x) else acc) = acc := by rw [hx]; rfl
    rw [hstep]
    exact ih acc (fun u hu => h u (List.mem_cons_of_mem x hu))

theorem arch_try_mirror_none (get : String → Except Unit Response) (m : String)
    (hemp : ∀ u r2, get u = .ok r2 → r2.hrefs = []) : arch_try_mirror get m = none := by
  unfold arch_try_mirror
  cases hm : get m with
  | error e => rfl
  | ok r =>
    have h1 : r.hrefs = [] := hemp m r hm
    simp [h1]

theorem arch_fallbacks_none (get : String → Except Unit Response)
    (hemp : ∀ u r2, get u = .ok r2 → r2.hrefs = []) : arch_fallbacks get = none := by
  unfold arch_fallbacks
  rw [arch_try_mirror_none get _ hemp, arch_try_mirror_none get _ hemp]

/-- C9 counterexample: `get_elementary_link` does NOT return `None`/empty on a
non-200 response — when both HEAD probes answer 404 it returns the fixed
download-page URL. -/
theorem c9_elementary_non200_counterexample :
    get_elementary_link (fun _ => .ok 404) = some "https://elementary.io/download" ∧
    some "https://elementary.io/download" ≠ (none : Option String) ∧
    "https://elementary.io/download" ≠ "" := by
  refine ⟨rfl, by decide, by decide⟩

/-- C9 (amended): every strategy returns `None` when its request raises, and
`None` when the anchor set is empty or non-matching; none of them raises (each
is a total function into `Option String`).  The status-code behavior differs
per strategy: `get_popos_link` returns `None` on a non-200 listing, but
`get_elementary_link` answers non-200 HEAD probes with its fixed download-page
URL, and the GET-based scrapers do not consult the status at all.
`get_zorin_link` returns `None` for an unknown edition. -/
theorem c9_strategy_failure_behavior :
    (∀ v, get_ubuntu_link (.error ()) v = none) ∧
    (∀ v r, (∀ h ∈ r.hrefs, isSubstrS "desktop-amd64.iso" h = false) →
      get_ubuntu_link (.ok r) v = none) ∧
    (∀ v, get_fedora_link (.error ()) v = none) ∧
    (∀ v r, (∀ h ∈ r.hrefs, fedora_iso_match h = false) →
      get_fedora_link (.ok r) v = none) ∧
    (∀ vt, get_debian_link (.error ()) vt = none) ∧
    (∀ vt r, (∀ h ∈ r.hrefs, (isSubstrS "netinst.iso" h || isSubstrS "DVD-1.iso" h) = false) →
      get_debian_link (.ok r) vt = none) ∧
    (∀ ver ed, get_mint_link (.error ()) ver ed = none) ∧
    (∀ ver ed r, (∀ h ∈ r.hrefs,
        isSubstrS ("linuxmint-" ++ ver ++ "-" ++ ed ++ "-64bit.iso") (strToLower h) = false) →
      get_mint_link (.ok r) ver ed = none) ∧
    (∀ head, head elementaryDirectUrl = .error () → get_elementary_link head = none) ∧
    (∀ head s1 s2, head elementaryDirectUrl = .ok s1 → s1 ≠ 200 →
      head elementaryFallbackUrl = .ok s2 → s2 ≠ 200 →
      get_elementary_link head = some "https://elementary.io/download") ∧
    (∀ head ver nv, get_popos_link (.error ()) head ver nv = none) ∧
    (∀ head ver nv r, r.status_code ≠ 200 → get_popos_link (.ok r) head ver nv = none) ∧
    (∀ head ver nv r, (∀ h ∈ r.hrefs, pyIsdigit h = false) →
      get_popos_link (.ok r) head ver nv = none) ∧
    (∀ ed, get_manjaro_link (.error ()) ed = none) ∧
    (∀ ed r, (∀ h ∈ r.hrefs,
        (strEndsWith h ".iso" && !(isSubstrS "minimal" (strToLower h))) = false) →
      get_manjaro_link (.ok r) ed = none) ∧
    (∀ vt, get_kali_link (.error ()) vt = none) ∧
    (∀ vt r, (∀ h ∈ r.hrefs,
        ((vt == "live" && isSubstrS "live-amd64.iso" h) ||
          (vt == "installer" && isSubstrS "installer-amd64.iso" h)) = false) →
      get_kali_link (.ok r) vt = none) ∧
    (∀ ed, strToLower ed ≠ "core" → strToLower ed ≠ "lite" → get_zorin_link ed = none) ∧
    (∀ get, get archBaseUrl = .error () → get_arch_link get = none) ∧
    (∀ get, (∀ u r2, get u = .ok r2 → r2.hrefs = []) → get_arch_link get = none) := by
  refine ⟨fun v => rfl, ?_, fun v => rfl, ?_, fun vt => rfl, ?_, fun ver ed => rfl, ?_,
    ?_, ?_, fun head ver nv => rfl, ?_, ?_, fun ed => rfl, ?_, fun vt => rfl, ?_,
    ?_, ?_, ?_⟩
  · intro v r h
    have hf : r.hrefs.find? (fun href => isSubstrS "desktop-amd64.iso" href) = none :=
      List.find?_eq_none.mpr (fun x hx => by simp [h x hx])
    simp [get_ubuntu_link, hf]
  · intro v r h
    have hf : r.hrefs.find? fedora_iso_match = none :=
      List.find?_eq_none.mpr (fun x hx => by simp [h x hx])
    simp [get_fedora_link, hf]
  · intro vt r h
    have hf : r.hrefs.find?
        (fun href => isSubstrS "netinst.iso" href || isSubstrS "DVD-1.iso" href) = none :=
      List.find?_eq_none.mpr (fun x hx => by simp [h x hx])
    simp [get_debian_link, hf]
  · intro ver ed r h
    have hf : r.hrefs.find?
        (fun href =>
          isSubstrS ("linuxmint-" ++ ver ++ "-" ++ ed ++ "-64bit.iso") (strToLower href)) =
        none :=
      List.find?_eq_none.mpr (fun x hx => by simp [h x hx])
    simp [get_mint_link, hf]
  · intro head h
    simp [get_elementary_link, h]
  · intro head s1 s2 h1 hne1 h2 hne2
    have hb1 : (s1 == 200) = false := by simp [hne1]
    have hb2 : (s2 == 200) = false := by simp [hne2]
    simp [get_elementary_link, h1, hb1, h2, hb2]
  · intro head ver nv r h
    have hb : (r.status_code == 200) = false := by simp [h]
    simp [get_popos_link, hb]
  · intro head ver nv r h
    have hsel : popos_latest_build r.hrefs = none := by
      unfold popos_latest_build select_latest
      exact select_fold_none pyIsdigit pyIntGt r.hrefs none h
    simp [get_popos_link, hsel]
  · intro ed r h
    have hfold := cond_fold_none
      (fun href => strEndsWith href ".iso" && !(isSubstrS "minimal" (strToLower href)))
      (fun href => urljoin "https://download.manjaro.org" href) r.hrefs none h
    simp only [get_manjaro_link]
    exact hfold
  · intro vt r h
    have hf : r.hrefs.find?
        (fun href =>
          (vt == "live" && isSubstrS "live-amd64.iso" href) ||
            (vt == "installer" && isSubstrS "installer-amd64.iso" href)) = none :=
      List.find?_eq_none.mpr (fun x hx => by simp [h x hx])
    simp [get_kali_link, hf]
  · intro ed h1 h2
    have hb1 : (strToLower ed == "core") = false := by simp [h1]
    have hb2 : (strToLower ed == "lite") = false := by simp [h2]
    simp [get_zorin_link, hb1, hb2]
  · intro get h
    simp [get_arch_link, h]
  · intro get hemp
    cases hbase : get archBaseUrl with
    | error e => simp [get_arch_link, hbase]
    | ok resp =>
      have h1 : resp.hrefs = [] := hemp _ _ hbase
      have hsel : arch_latest_version resp.hrefs = none := by rw [h1]; rfl
      simp [get_arch_link, hbase, hsel, arch_fallbacks_none get hemp]

/-- C9 witness: the amended theorem applied at concrete failing inputs for
three strategies. -/
theorem c9_strategy_failure_behavior_witness :
    get_ubuntu_link (.error ()) "24.04" = none ∧
    get_popos_link (.ok ⟨404, ["123"], "https://iso.pop-os.org"⟩) (fun _ => .ok 200)
      "22.04" false = none ∧
    get_zorin_link "studio" = none := by
  obtain ⟨h1, _, _, _, _, _, _, _, _, _, _, h12, _, _, _, _, _, h18, _, _⟩ :=
    c9_strategy_failure_behavior
  exact ⟨h1 "24.04", h12 (fun _ => .ok 200) "22.04" false ⟨404, ["123"], "https://iso.pop-os.org"⟩
    (by decide), h18 "studio" (by decide) (by decide)⟩
